import Mathlib

/-!
Verification of `src/biblioteca_maria_orm.py`, a single-table book-catalogue
manager (CLI over a `libros` table accessed through SQLAlchemy/MariaDB).

The database table plus the process-wide ORM session are embedded as a pure
`Store` value: the list of rows in physical (primary-key) order together with
the next auto-increment id. Each CRUD method of `LibroDBManager` becomes a
pure function from a `Store` (and its arguments) to its Python return value
paired with the post-state. `ORDER BY titulo` is embedded as a stable
insertion sort on the stored row order; SQL `ILIKE` is embedded as a
case-insensitive wildcard matcher (`likeMatch`) over the unescaped pattern
the code builds. Console rendering is embedded as the list of printed lines,
with `Option` tracking the `TypeError` raised when `len` is applied to a
`None` genre.
-/

namespace Biblioteca

/-- The `libros` row of the ORM model `Libro`: `id` integer primary key,
`titulo`/`autor`/`estado` non-nullable strings, `genero` a nullable string
(hence `Option String`). -/
structure Libro where
  id : Nat
  titulo : String
  autor : String
  genero : Option String
  estado : String
deriving DecidableEq, Repr

/-- `ESTADOS_LECTURA = ('Leído', 'No leído')`, the two reading states the
console layer offers. -/
def ESTADOS_LECTURA : List String := ["Leído", "No leído"]

/-- The database state seen through the single session: the rows of the
`libros` table in physical (id) order, and the next value of the
auto-increment `id` column. -/
structure Store where
  records : List Libro
  nextId : Nat
deriving Repr

/-- The freshly created, empty `libros` table (MariaDB auto-increment starts
at 1). -/
def Store.vacio : Store := ⟨[], 1⟩

/-- `obtener_libro_por_id`: `session.get(Libro, libro_id)`, a primary-key
point lookup returning the row or `None`. -/
def obtener_libro_por_id (s : Store) (libro_id : Nat) : Option Libro :=
  s.records.find? (fun l => l.id == libro_id)

/-- `insertar_libro`: adds a row built from the four field values, commits and
returns `True`. The `IntegrityError` branch (return `False` after rollback)
is unreachable in this embedding: the table has no uniqueness constraint
besides the auto-assigned primary key, and the non-nullable columns are
`String`-typed here, so no integrity constraint can fail. -/
def insertar_libro (s : Store) (titulo autor : String) (genero : Option String)
    (estado : String) : Bool × Store :=
  (true,
   { records := s.records ++ [⟨s.nextId, titulo, autor, genero, estado⟩],
     nextId := s.nextId + 1 })

/-- `setattr(libro, campo, nuevo_valor)` for the values the CLI passes
(always strings). The four mapped column names update the corresponding
column; any other name creates a transient Python attribute that is not
mapped to a column, so the committed row is unchanged. (Updating the `id`
primary-key column with a CLI string is driver/SQL-mode dependent and never
exercised by the program; it is outside this embedding.) -/
def setCampo (l : Libro) (campo nuevo_valor : String) : Libro :=
  if campo = "titulo" then { l with titulo := nuevo_valor }
  else if campo = "autor" then { l with autor := nuevo_valor }
  else if campo = "genero" then { l with genero := some nuevo_valor }
  else if campo = "estado" then { l with estado := nuevo_valor }
  else l

/-- `actualizar_libro`: looks the row up by id; if absent returns
`(False, "Libro no encontrado.")`. Otherwise it `setattr`s the field and
commits. The `exc` argument is the exception oracle for the commit: `none`
models the commit succeeding (the return is `(True, None)`), `some e` models
`commit()` raising an exception rendered as `e`, after which the session is
rolled back — the store is unchanged — and the return is
`(False, f"Error al actualizar: {e}")`. The result pairs the Python return
value with the post-state. -/
def actualizar_libro (s : Store) (libro_id : Nat) (campo nuevo_valor : String)
    (exc : Option String) : (Bool × Option String) × Store :=
  match obtener_libro_por_id s libro_id with
  | none => ((false, some "Libro no encontrado."), s)
  | some _ =>
    match exc with
    | some e => ((false, some ("Error al actualizar: " ++ e)), s)
    | none =>
      ((true, none),
       { s with records :=
          s.records.map (fun l => if l.id == libro_id then setCampo l campo nuevo_valor else l) })

/-- `eliminar_libro`: looks the row up by id; if absent returns `False`,
otherwise deletes the row, commits and returns `True`. (The
`except Exception` branch is unreachable in this embedding: deleting an
existing row of a table with no foreign keys cannot violate a constraint.) -/
def eliminar_libro (s : Store) (libro_id : Nat) : Bool × Store :=
  match obtener_libro_por_id s libro_id with
  | none => (false, s)
  | some _ => (true, { s with records := s.records.filter (fun l => l.id != libro_id) })

/-- The `ORDER BY Libro.titulo` comparison. -/
def leTitulo (a b : Libro) : Prop := a.titulo ≤ b.titulo

instance : DecidableRel leTitulo := fun a b => inferInstanceAs (Decidable (a.titulo ≤ b.titulo))

instance : IsTotal Libro leTitulo := ⟨fun a b => le_total a.titulo b.titulo⟩

instance : IsTrans Libro leTitulo := ⟨fun _ _ _ h1 h2 => le_trans h1 h2⟩

/-- `ORDER BY Libro.titulo` over the physical row order: a stable sort by
title (ties keep primary-key scan order, as an InnoDB title-less scan
returns them). -/
def ordenarPorTitulo (ls : List Libro) : List Libro :=
  List.insertionSort leTitulo ls

/-- `obtener_todos_los_libros`: `select(Libro).order_by(Libro.titulo)` over
the whole table. -/
def obtener_todos_los_libros (s : Store) : List Libro :=
  ordenarPorTitulo s.records

/-- Case-insensitive character comparison, as a case-insensitive (`_ci`)
collation compares letters under `ILIKE`. -/
def ciEq (a b : Char) : Bool := a.toLower == b.toLower

/-- SQL `LIKE` pattern matching, case-insensitive (`ilike`): `%` matches any
sequence (the rest of the pattern must match some suffix of the subject),
`_` matches any single character, a backslash escapes the next pattern
character (a trailing backslash is a literal backslash), and every other
character matches case-insensitively. -/
def likeMatch : List Char → List Char → Bool
  | [], s => s.isEmpty
  | c :: p, s =>
    if c = '%' then s.tails.any (fun s2 => likeMatch p s2)
    else if c = '_' then
      match s with | [] => false | _ :: s2 => likeMatch p s2
    else if c = '\\' then
      match p with
      | [] => (match s with | [] => false | c2 :: s2 => ciEq c c2 && s2.isEmpty)
      | c3 :: p2 => (match s with | [] => false | c2 :: s2 => ciEq c3 c2 && likeMatch p2 s2)
    else
      match s with | [] => false | c2 :: s2 => ciEq c c2 && likeMatch p s2

/-- One disjunct of the `buscar_libros` filter: the column value matched
against the pattern `f"%{termino}%"`. A `NULL` column (`genero = none`)
never matches, as `NULL LIKE p` is not true in SQL. -/
def coincideLike (termino : String) (columna : Option String) : Bool :=
  match columna with
  | none => false
  | some v => likeMatch ('%' :: (termino.data ++ ['%'])) v.data

/-- `buscar_libros`: filters on
`titulo ILIKE %termino% OR autor ILIKE %termino% OR genero ILIKE %termino%`
with the term spliced into the pattern unescaped, then orders by title. -/
def buscar_libros (s : Store) (termino : String) : List Libro :=
  ordenarPorTitulo (s.records.filter (fun l =>
    coincideLike termino (some l.titulo) || coincideLike termino (some l.autor) ||
      coincideLike termino l.genero))

/-! Spec-side search predicate, for the refinement comparison with the
`ILIKE`-based filter the code runs. -/

/-- Spec-side: `n` is a case-insensitive prefix of `h` (character lists). -/
def esPrefijoCI : List Char → List Char → Bool
  | [], _ => true
  | _ :: _, [] => false
  | c :: n, c2 :: h => ciEq c c2 && esPrefijoCI n h

/-- Spec-side: `n` is a case-insensitive substring of `h` (character lists). -/
def contieneCI : List Char → List Char → Bool
  | n, [] => esPrefijoCI n []
  | n, h :: hs => esPrefijoCI n (h :: hs) || contieneCI n hs

/-- Spec-side predicate, following the spec's words: the term is a
case-insensitive substring of the title, of the author, or of the genre
(an absent genre matches nothing). To be compared with the
`ILIKE`-based filter of `buscar_libros`. -/
def coincideSubcadenaCI (termino : String) (l : Libro) : Bool :=
  contieneCI termino.data l.titulo.data || contieneCI termino.data l.autor.data ||
    (match l.genero with
     | none => false
     | some g => contieneCI termino.data g.data)

/-- The search term contains none of the `LIKE` metacharacters the code
splices into the pattern unescaped. -/
def sinComodines (termino : String) : Bool :=
  termino.data.all (fun c => c ≠ '%' && c ≠ '_' && c ≠ '\\')

/-! Console rendering (`mostrar_libros_tabla`). -/

/-- Column widths `COL_ID`, `COL_TITULO`, `COL_AUTOR`, `COL_GENERO`,
`COL_ESTADO` of `mostrar_libros_tabla`. -/
def COL_ID : Nat := 5
def COL_TITULO : Nat := 40
def COL_AUTOR : Nat := 25
def COL_GENERO : Nat := 15
def COL_ESTADO : Nat := 12

/-- Python's `f"{x:<{w}}"`: left-align `x` in a field of width `w` (longer
values are not cut). -/
def padIzq (s : String) (w : Nat) : String :=
  s ++ String.mk (List.replicate (w - s.length) ' ')

/-- The truncation expression applied to `titulo`, `autor` and `genero`:
`(v[:w-3] + '...') if len(v) > w else v`. -/
def truncar (v : String) (w : Nat) : String :=
  if v.length > w then String.mk (v.data.take (w - 3)) ++ "..." else v

/-- The `separador(char)` helper line. -/
def separador (c : Char) : String :=
  "+" ++ String.mk (List.replicate COL_ID c) ++ "+" ++ String.mk (List.replicate COL_TITULO c) ++
    "+" ++ String.mk (List.replicate COL_AUTOR c) ++ "+" ++
    String.mk (List.replicate COL_GENERO c) ++ "+" ++
    String.mk (List.replicate COL_ESTADO c) ++ "+"

/-- The header row of the table. -/
def encabezado : String :=
  "| " ++ padIzq "ID" (COL_ID - 1) ++ " | " ++ padIzq "TÍTULO" (COL_TITULO - 1) ++ " | " ++
    padIzq "AUTOR" (COL_AUTOR - 1) ++ " | " ++ padIzq "GÉNERO" (COL_GENERO - 1) ++ " | " ++
    padIzq "ESTADO" (COL_ESTADO - 1) ++ " |"

/-- One body row of the table. `titulo` and `autor` are truncated at their
column widths; `genero` is truncated too, but when the nullable `genero`
column holds `NULL` the expression `len(libro['genero'])` applies `len` to
`None` and raises `TypeError`, modelled as `none`. `id` and `estado` are
formatted without truncation. -/
def filaLibro (l : Libro) : Option String :=
  match l.genero with
  | none => none
  | some g =>
    some ("| " ++ padIzq (toString l.id) (COL_ID - 1) ++ " | " ++
      padIzq (truncar l.titulo COL_TITULO) (COL_TITULO - 1) ++ " | " ++
      padIzq (truncar l.autor COL_AUTOR) (COL_AUTOR - 1) ++ " | " ++
      padIzq (truncar g COL_GENERO) (COL_GENERO - 1) ++ " | " ++
      padIzq l.estado (COL_ESTADO - 1) ++ " |")

/-- The `for libro in libros` row loop: all rows, or `none` as soon as one
row raises. -/
def filasLibros : List Libro → Option (List String)
  | [] => some []
  | l :: ls =>
    match filaLibro l, filasLibros ls with
    | some f, some fs => some (f :: fs)
    | _, _ => none

/-- `mostrar_libros_tabla` as the list of lines it prints: the informational
message for an empty list, otherwise separators, header and one row per
book. `none` models the `TypeError` raised while rendering a row whose
`genero` is `None` (the Python function prints the frame and any rows
before the offending one, then propagates the exception; the embedding
keeps only whether a full table is printed and what it contains). -/
def mostrar_libros_tabla (libros : List Libro) : Option (List String) :=
  if libros.isEmpty then
    some ["\n No hay libros registrados o no se encontraron resultados."]
  else
    match filasLibros libros with
    | none => none
    | some filas => some ([separador '-', encabezado, separador '='] ++ filas ++ [separador '-'])

/-! The main-menu loop. -/

/-- What one iteration of the `while True` loop in `main` does with the raw
line read from standard input. -/
inductive MenuPaso where
  /-- One of the five handlers runs (`manejar_agregar_libro` ..
  `manejar_eliminar_libro`); control returns to the top of the loop. -/
  | accion (n : Nat)
  /-- The farewell message is printed and `break` leaves the loop: the
  program terminates. -/
  | salir
  /-- The invalid-option message is printed; control returns to the top of
  the loop. -/
  | invalido
deriving DecidableEq, Repr

/-- Python's `str.strip()`: remove leading and trailing whitespace. -/
def strip (s : String) : String :=
  String.mk (((s.data.dropWhile Char.isWhitespace).reverse.dropWhile Char.isWhitespace).reverse)

/-- One iteration of `main`'s menu loop on the raw input line:
`opcion = input(...).strip()` followed by the `if/elif` chain, where only
option `'6'` reaches `break`. -/
def mainPaso (entrada : String) : MenuPaso :=
  let opcion := strip entrada
  if opcion = "1" then .accion 1
  else if opcion = "2" then .accion 2
  else if opcion = "3" then .accion 3
  else if opcion = "4" then .accion 4
  else if opcion = "5" then .accion 5
  else if opcion = "6" then .salir
  else .invalido

/-- The message `manejar_actualizar_libro` prints from the pair
`(exito, error)` returned by `actualizar_libro`: success message, explicit
error message, or — when `exito` is falsy and `error` is falsy (None or the
empty string) — the ambiguous "No se realizó ninguna actualización."
message. -/
def mensajeActualizacion (libro_id : Nat) (exito : Bool) (error : Option String) : String :=
  if exito then "\n Libro ID " ++ toString libro_id ++ " actualizado exitosamente."
  else if error ≠ none ∧ error ≠ some "" then
    "\n No se pudo actualizar el libro: " ++ error.getD ""
  else "\n No se realizó ninguna actualización."

/-- The third, silent outcome of the update handler: neither the success
branch nor the explicit-error branch, i.e. `exito` falsy and `error` falsy. -/
def resultadoSilencioso (exito : Bool) (error : Option String) : Bool :=
  !exito && (error == none || error == some "")

/-! Store invariants maintained by the program. -/

/-- Primary-key order on rows. -/
def ltId (a b : Libro) : Prop := a.id < b.id

instance : DecidableRel ltId := fun a b => inferInstanceAs (Decidable (a.id < b.id))

instance : IsAntisymm Libro ltId := ⟨fun _ _ h1 h2 => absurd h2 (Nat.lt_asymm h1)⟩

/-- The rows are in strictly increasing primary-key order (how InnoDB stores
them and how every operation of the program leaves them), and every
existing id is below the auto-increment counter. -/
def StoreInv (s : Store) : Prop :=
  s.records.Pairwise ltId ∧ ∀ l ∈ s.records, l.id < s.nextId

/-- Observation function used to state the update frame property: the value
of a named column of a row, read the way `actualizar_libro` writes it
(`genero` is nullable, the other three are plain strings). -/
def campoValor (l : Libro) (campo : String) : Option String :=
  if campo = "titulo" then some l.titulo
  else if campo = "autor" then some l.autor
  else if campo = "genero" then l.genero
  else if campo = "estado" then some l.estado
  else none

/-! Supporting lemmas: `ILIKE` with the `f"%{termino}%"` pattern is
case-insensitive substring containment, provided the term contains no
`LIKE` metacharacter. -/

theorem likeMatch_pct_cons (p s : List Char) :
    likeMatch ('%' :: p) s = s.tails.any (fun s2 => likeMatch p s2) := by
  rw [likeMatch.eq_def]
  simp

theorem likeMatch_lit_cons (c : Char) (p s : List Char) (h1 : c ≠ '%') (h2 : c ≠ '_')
    (h3 : c ≠ '\\') :
    likeMatch (c :: p) s =
      (match s with | [] => false | c2 :: s2 => ciEq c c2 && likeMatch p s2) := by
  rw [likeMatch.eq_def]
  simp [h1, h2, h3]

theorem likeMatch_append_pct (t : List Char)
    (ht : t.all (fun c => c ≠ '%' && c ≠ '_' && c ≠ '\\') = true) :
    ∀ s, likeMatch (t ++ ['%']) s = esPrefijoCI t s := by
  induction t with
  | nil =>
    intro s
    rw [List.nil_append, likeMatch_pct_cons]
    have h : ∀ u : List Char, u.tails.any (fun s2 => likeMatch [] s2) = true := by
      intro u
      induction u with
      | nil => simp [likeMatch]
      | cons c u ihu => simp [List.tails_cons, List.any_cons, ihu]
    simp [h, esPrefijoCI]
  | cons c t ih =>
    intro s
    simp only [List.all_cons, Bool.and_eq_true, decide_eq_true_eq] at ht
    obtain ⟨⟨⟨h1, h2⟩, h3⟩, ht⟩ := ht
    rw [List.cons_append, likeMatch_lit_cons c (t ++ ['%']) _ h1 h2 h3]
    cases s with
    | nil => simp [esPrefijoCI]
    | cons c2 s => simp [esPrefijoCI, ih ht]

theorem tails_any_esPrefijoCI (t : List Char) :
    ∀ s, s.tails.any (fun s2 => esPrefijoCI t s2) = contieneCI t s := by
  intro s
  induction s with
  | nil => simp [contieneCI]
  | cons c s ih => simp [List.tails_cons, List.any_cons, contieneCI, ih]

theorem likeMatch_pct_append_pct (t : List Char)
    (ht : t.all (fun c => c ≠ '%' && c ≠ '_' && c ≠ '\\') = true) :
    ∀ s, likeMatch ('%' :: (t ++ ['%'])) s = contieneCI t s := by
  intro s
  rw [likeMatch_pct_cons, ← tails_any_esPrefijoCI t s]
  simp only [likeMatch_append_pct t ht]

theorem coincideLike_eq_contieneCI (termino : String) (h : sinComodines termino = true)
    (l : Libro) :
    (coincideLike termino (some l.titulo) || coincideLike termino (some l.autor) ||
        coincideLike termino l.genero) =
      coincideSubcadenaCI termino l := by
  have hw : termino.data.all (fun c => c ≠ '%' && c ≠ '_' && c ≠ '\\') = true := h
  cases hg : l.genero with
  | none => simp [coincideLike, coincideSubcadenaCI, hg, likeMatch_pct_append_pct _ hw]
  | some g => simp [coincideLike, coincideSubcadenaCI, hg, likeMatch_pct_append_pct _ hw]

/-! Supporting lemmas on lookup and update. -/

theorem find?_id_none_of_lt (rs : List Libro) (n : Nat) (h : ∀ l ∈ rs, l.id < n) :
    rs.find? (fun l => l.id == n) = none := by
  induction rs with
  | nil => rfl
  | cons a rs ih =>
    have ha : (a.id == n) = false := by
      simp [Nat.ne_of_lt (h a (by simp))]
    simp only [List.find?_cons, ha]
    exact ih fun l hl => h l (by simp [hl])

theorem setCampo_id (l : Libro) (campo v : String) : (setCampo l campo v).id = l.id := by
  unfold setCampo
  split
  · rfl
  split
  · rfl
  split
  · rfl
  split <;> rfl

theorem find?_map_setCampo (rs : List Libro) (i : Nat) (l0 : Libro) (c v : String)
    (h : rs.find? (fun l => l.id == i) = some l0) :
    (rs.map fun l => if l.id == i then setCampo l c v else l).find? (fun l => l.id == i) =
      some (setCampo l0 c v) := by
  induction rs with
  | nil => simp at h
  | cons a rs ih =>
    by_cases ha : (a.id == i) = true
    · simp only [List.find?_cons, ha] at h
      injection h with h
      subst h
      rw [List.map_cons]
      have hfa : (if (a.id == i) = true then setCampo a c v else a) = setCampo a c v := by
        simp [ha]
      rw [hfa]
      have hsc : ((setCampo a c v).id == i) = true := by
        rw [setCampo_id]
        exact ha
      simp only [List.find?_cons, hsc]
    · have ha' : (a.id == i) = false := by simpa using ha
      simp only [List.find?_cons, ha'] at h
      simp only [List.map_cons, ha', Bool.false_eq_true, if_false, List.find?_cons]
      exact ih h

/-! Supporting lemmas: the store invariant holds for the empty table and is
preserved by every operation. -/

theorem storeInv_vacio : StoreInv Store.vacio := by
  constructor
  · exact List.Pairwise.nil
  · intro l hl
    simp [Store.vacio] at hl

theorem storeInv_insertar (s : Store) (titulo autor estado : String) (genero : Option String)
    (h : StoreInv s) : StoreInv (insertar_libro s titulo autor genero estado).2 := by
  obtain ⟨hpair, hlt⟩ := h
  unfold insertar_libro StoreInv
  dsimp only
  constructor
  · rw [List.pairwise_append]
    refine ⟨hpair, by simp [List.Pairwise.nil], ?_⟩
    intro a ha b hb
    simp only [List.mem_singleton] at hb
    subst hb
    exact hlt a ha
  · intro l hl
    rcases List.mem_append.mp hl with h1 | h1
    · exact Nat.lt_trans (hlt l h1) (Nat.lt_succ_self _)
    · simp only [List.mem_singleton] at h1
      subst h1
      exact Nat.lt_succ_self _

theorem storeInv_eliminar (s : Store) (libro_id : Nat) (h : StoreInv s) :
    StoreInv (eliminar_libro s libro_id).2 := by
  obtain ⟨hpair, hlt⟩ := h
  unfold eliminar_libro
  cases hfind : obtener_libro_por_id s libro_id with
  | none => exact ⟨hpair, hlt⟩
  | some l0 =>
    constructor
    · exact hpair.sublist (List.filter_sublist _)
    · intro l hl
      exact hlt l (List.mem_of_mem_filter hl)

theorem storeInv_actualizar (s : Store) (libro_id : Nat) (campo v : String) (exc : Option String)
    (h : StoreInv s) : StoreInv (actualizar_libro s libro_id campo v exc).2 := by
  obtain ⟨hpair, hlt⟩ := h
  unfold actualizar_libro
  cases hfind : obtener_libro_por_id s libro_id with
  | none => exact ⟨hpair, hlt⟩
  | some l0 =>
    cases exc with
    | some e => exact ⟨hpair, hlt⟩
    | none =>
      have hid : ∀ l : Libro,
          (if l.id == libro_id then setCampo l campo v else l).id = l.id := by
        intro l
        split
        · exact setCampo_id l campo v
        · rfl
      constructor
      · rw [List.pairwise_map]
        refine hpair.imp ?_
        intro a b hab
        unfold ltId at hab ⊢
        rwa [hid a, hid b]
      · intro l hl
        rcases List.mem_map.mp hl with ⟨x, hx, rfl⟩
        rw [hid x]
        exact hlt x hx

/-! Concrete fixtures used by witnesses and counterexamples. -/

def libroUno : Libro := ⟨1, "Cien años de soledad", "García Márquez", some "Novela", "No leído"⟩

def storeUno : Store := ⟨[libroUno], 2⟩

def storeUnoB : Store := ⟨[libroUno], 5⟩

def libroGato : Libro := ⟨1, "cat", "anon", some "g", "Leído"⟩

def storeGato : Store := ⟨[libroGato], 2⟩

/-- C1: under the program's store invariant (every stored id is below the
auto-increment counter), `insertar_libro` returns `True` and the new record
is retrievable by its newly assigned id with exactly the inserted title,
author, genre and status, the new id differing from the id of every
pre-existing record. -/
theorem insertar_luego_obtener (s : Store) (titulo autor : String) (genero : Option String)
    (estado : String) (hinv : StoreInv s) :
    (insertar_libro s titulo autor genero estado).1 = true ∧
    ∃ nuevoId,
      obtener_libro_por_id (insertar_libro s titulo autor genero estado).2 nuevoId =
        some ⟨nuevoId, titulo, autor, genero, estado⟩ ∧
      ∀ l ∈ s.records, l.id ≠ nuevoId := by
  refine ⟨rfl, s.nextId, ?_, fun l hl => Nat.ne_of_lt (hinv.2 l hl)⟩
  unfold insertar_libro obtener_libro_por_id
  dsimp only
  simp [List.find?_append, find?_id_none_of_lt s.records s.nextId hinv.2, List.find?_cons]

/-- Witness for C1: inserting a concrete book into a concrete one-book store. -/
theorem insertar_luego_obtener_testigo :
    (insertar_libro storeUno "Dune" "Frank Herbert" (some "SF") "Leído").1 = true ∧
    ∃ nuevoId,
      obtener_libro_por_id (insertar_libro storeUno "Dune" "Frank Herbert" (some "SF") "Leído").2
          nuevoId =
        some ⟨nuevoId, "Dune", "Frank Herbert", some "SF", "Leído"⟩ ∧
      ∀ l ∈ storeUno.records, l.id ≠ nuevoId :=
  insertar_luego_obtener storeUno "Dune" "Frank Herbert" (some "SF") "Leído"
    ⟨by decide, by decide⟩

/-- C2 (amended): for a search term containing no `LIKE` metacharacter
(`%`, `_`, `\`), `buscar_libros` returns exactly the records whose title,
author or genre contains the term as a case-insensitive substring — as a
permutation of the filtered table, so no record more and no record fewer —
sorted by title ascending, and the empty list when no record matches. -/
theorem buscar_subcadena_ordenado (s : Store) (termino : String)
    (h : sinComodines termino = true) :
    (buscar_libros s termino).Perm (s.records.filter (coincideSubcadenaCI termino)) ∧
    List.Sorted leTitulo (buscar_libros s termino) ∧
    ((∀ l ∈ s.records, coincideSubcadenaCI termino l = false) →
      buscar_libros s termino = []) := by
  have hfil : (s.records.filter fun l =>
      coincideLike termino (some l.titulo) || coincideLike termino (some l.autor) ||
        coincideLike termino l.genero) = s.records.filter (coincideSubcadenaCI termino) :=
    List.filter_congr fun l _ => coincideLike_eq_contieneCI termino h l
  refine ⟨?_, ?_, ?_⟩
  · unfold buscar_libros ordenarPorTitulo
    rw [hfil]
    exact List.perm_insertionSort leTitulo _
  · exact List.sorted_insertionSort leTitulo _
  · intro hall
    unfold buscar_libros ordenarPorTitulo
    rw [hfil, List.filter_eq_nil_iff.mpr fun a ha => by simp [hall a ha]]
    rfl

/-- Witness for C2: searching a concrete store for the wildcard-free term
"garcía" (a case-insensitive substring of the author). -/
theorem buscar_subcadena_ordenado_testigo :
    (buscar_libros storeUno "garcía").Perm
      (storeUno.records.filter (coincideSubcadenaCI "garcía")) ∧
    List.Sorted leTitulo (buscar_libros storeUno "garcía") ∧
    ((∀ l ∈ storeUno.records, coincideSubcadenaCI "garcía" l = false) →
      buscar_libros storeUno "garcía" = []) :=
  buscar_subcadena_ordenado storeUno "garcía" (by decide)

/-- Counterexample for C2 as stated: the term "c_t" is spliced into the
`LIKE` pattern unescaped, so its `_` acts as a single-character wildcard:
the search returns the book titled "cat" although "c_t" is not a
case-insensitive substring of its title, author or genre. -/
theorem buscar_comodin_contraejemplo :
    buscar_libros storeGato "c_t" = [libroGato] ∧
    coincideSubcadenaCI "c_t" libroGato = false := by
  constructor
  · decide
  · decide

/-- C3: updating one of the four named fields of an existing record and
re-reading it by id succeeds, keeps the id, sets the named field to the new
value and leaves the other three named fields unchanged. -/
theorem actualizar_luego_obtener (s : Store) (libro_id : Nat) (l0 : Libro) (campo v : String)
    (hl : obtener_libro_por_id s libro_id = some l0)
    (hc : campo ∈ (["titulo", "autor", "genero", "estado"] : List String)) :
    (actualizar_libro s libro_id campo v none).1 = (true, none) ∧
    obtener_libro_por_id (actualizar_libro s libro_id campo v none).2 libro_id =
      some (setCampo l0 campo v) ∧
    (setCampo l0 campo v).id = l0.id ∧
    campoValor (setCampo l0 campo v) campo = some v ∧
    ∀ c ∈ (["titulo", "autor", "genero", "estado"] : List String),
      c ≠ campo → campoValor (setCampo l0 campo v) c = campoValor l0 c := by
  refine ⟨?_, ?_, setCampo_id l0 campo v, ?_, ?_⟩
  · unfold actualizar_libro
    rw [hl]
  · unfold actualizar_libro
    rw [hl]
    unfold obtener_libro_por_id
    dsimp only
    exact find?_map_setCampo s.records libro_id l0 campo v hl
  · simp only [List.mem_cons, List.not_mem_nil, or_false] at hc
    rcases hc with rfl | rfl | rfl | rfl <;> simp [setCampo, campoValor]
  · intro c hcmem hne
    simp only [List.mem_cons, List.not_mem_nil, or_false] at hc hcmem
    rcases hc with rfl | rfl | rfl | rfl <;>
      rcases hcmem with rfl | rfl | rfl | rfl <;>
        first
        | exact absurd rfl hne
        | simp [setCampo, campoValor]

/-- Witness for C3: updating the author of a concrete record. -/
theorem actualizar_luego_obtener_testigo :
    (actualizar_libro storeUno 1 "autor" "G. García Márquez" none).1 = (true, none) ∧
    obtener_libro_por_id (actualizar_libro storeUno 1 "autor" "G. García Márquez" none).2 1 =
      some (setCampo libroUno "autor" "G. García Márquez") ∧
    (setCampo libroUno "autor" "G. García Márquez").id = libroUno.id ∧
    campoValor (setCampo libroUno "autor" "G. García Márquez") "autor" =
      some "G. García Márquez" ∧
    ∀ c ∈ (["titulo", "autor", "genero", "estado"] : List String),
      c ≠ "autor" →
        campoValor (setCampo libroUno "autor" "G. García Márquez") c = campoValor libroUno c :=
  actualizar_luego_obtener storeUno 1 libroUno "autor" "G. García Márquez" (by decide)
    (by decide)

/-- C4 (amended): `actualizar_libro` performs no validation of the status
field — it is constrained to the two enumerated values only by the console
input loop. Updating the status of an existing record to a value outside
`ESTADOS_LECTURA` therefore succeeds (`(True, None)`), commits, and
persists that value; only the status field changes. -/
theorem actualizar_estado_sin_validar (s : Store) (libro_id : Nat) (l0 : Libro) (v : String)
    (hl : obtener_libro_por_id s libro_id = some l0) (_hv : v ∉ ESTADOS_LECTURA) :
    (actualizar_libro s libro_id "estado" v none).1 = (true, none) ∧
    obtener_libro_por_id (actualizar_libro s libro_id "estado" v none).2 libro_id =
      some { l0 with estado := v } := by
  have hset : setCampo l0 "estado" v = { l0 with estado := v } := by
    simp [setCampo]
  constructor
  · unfold actualizar_libro
    rw [hl]
  · unfold actualizar_libro
    rw [hl]
    unfold obtener_libro_por_id
    dsimp only
    rw [← hset]
    exact find?_map_setCampo s.records libro_id l0 "estado" v hl

/-- Witness for C4 (amended): setting the status of a concrete record to
"Pendiente", which is neither of the two enumerated states. -/
theorem actualizar_estado_sin_validar_testigo :
    (actualizar_libro storeUno 1 "estado" "Pendiente" none).1 = (true, none) ∧
    obtener_libro_por_id (actualizar_libro storeUno 1 "estado" "Pendiente" none).2 1 =
      some { libroUno with estado := "Pendiente" } :=
  actualizar_estado_sin_validar storeUno 1 libroUno "Pendiente" (by decide) (by decide)

/-- Counterexample for C4 as stated: updating the status of an existing
record to "Pendiente" — not one of the two enumerated values — does not
return a validation failure: it returns `(True, None)` and the stored
record now carries status "Pendiente". -/
theorem actualizar_estado_invalido_contraejemplo :
    ("Pendiente" ∉ ESTADOS_LECTURA) ∧
    (actualizar_libro storeUno 1 "estado" "Pendiente" none).1 = (true, none) ∧
    obtener_libro_por_id (actualizar_libro storeUno 1 "estado" "Pendiente" none).2 1 =
      some ⟨1, "Cien años de soledad", "García Márquez", some "Novela", "Pendiente"⟩ := by
  refine ⟨by decide, by decide, by decide⟩

/-- C5: on an id with no corresponding record, `actualizar_libro` returns
the not-found failure `(False, "Libro no encontrado.")` and
`eliminar_libro` returns `False`, and both leave the store exactly as it
was. -/
theorem no_encontrado_deja_store (s : Store) (libro_id : Nat) (campo v : String)
    (exc : Option String) (h : obtener_libro_por_id s libro_id = none) :
    actualizar_libro s libro_id campo v exc = ((false, some "Libro no encontrado."), s) ∧
    eliminar_libro s libro_id = (false, s) := by
  unfold actualizar_libro eliminar_libro
  rw [h]
  exact ⟨rfl, rfl⟩

/-- Witness for C5: updating and deleting id 7, which is absent from the
concrete one-book store. -/
theorem no_encontrado_deja_store_testigo :
    actualizar_libro storeUno 7 "titulo" "X" none =
      ((false, some "Libro no encontrado."), storeUno) ∧
    eliminar_libro storeUno 7 = (false, storeUno) :=
  no_encontrado_deja_store storeUno 7 "titulo" "X" none (by decide)

/-- C6: under the program's store invariant (rows in strictly increasing
primary-key order, as every operation maintains), two stores holding the
same multiset of records produce the same `obtener_todos_los_libros`
output, and that output is sorted by title ascending. -/
theorem obtener_todos_determinista (s1 s2 : Store) (h1 : StoreInv s1) (h2 : StoreInv s2)
    (hp : s1.records.Perm s2.records) :
    obtener_todos_los_libros s1 = obtener_todos_los_libros s2 ∧
    (obtener_todos_los_libros s1).Perm s1.records ∧
    List.Sorted leTitulo (obtener_todos_los_libros s1) := by
  have heq : s1.records = s2.records := List.eq_of_perm_of_sorted hp h1.1 h2.1
  refine ⟨?_, List.perm_insertionSort leTitulo _, List.sorted_insertionSort leTitulo _⟩
  unfold obtener_todos_los_libros ordenarPorTitulo
  rw [heq]

/-- Witness for C6: two concrete stores holding the same records (differing
auto-increment counters). -/
theorem obtener_todos_determinista_testigo :
    obtener_todos_los_libros storeUno = obtener_todos_los_libros storeUnoB ∧
    (obtener_todos_los_libros storeUno).Perm storeUno.records ∧
    List.Sorted leTitulo (obtener_todos_los_libros storeUno) :=
  obtener_todos_determinista storeUno storeUnoB ⟨by decide, by decide⟩ ⟨by decide, by decide⟩
    (by decide)

/-- Exhaustive case split on the result of `actualizar_libro`: success with
no message, or failure with a non-empty message. -/
theorem actualizar_resultado_casos (s : Store) (libro_id : Nat) (campo v : String)
    (exc : Option String) :
    (actualizar_libro s libro_id campo v exc).1 = (true, none) ∨
    ∃ m, m ≠ "" ∧ (actualizar_libro s libro_id campo v exc).1 = (false, some m) := by
  unfold actualizar_libro
  cases hfind : obtener_libro_por_id s libro_id with
  | none =>
    right
    exact ⟨"Libro no encontrado.", by decide, rfl⟩
  | some l0 =>
    cases exc with
    | none => left; rfl
    | some e =>
      right
      refine ⟨"Error al actualizar: " ++ e, ?_, rfl⟩
      intro hcontra
      have h2 := congrArg String.data hcontra
      simp [String.data_append] at h2

/-- C7 (amended): `actualizar_libro` never produces the silent third
outcome: its result is either success `(True, None)` or a failure carrying
a non-empty message, so the `(False, None)` shape that would make the
console handler print neither a success nor an error message is
unreachable (the handler's "No se realizó ninguna actualización." branch is
dead code). -/
theorem actualizar_nunca_silencioso (s : Store) (libro_id : Nat) (campo v : String)
    (exc : Option String) :
    resultadoSilencioso (actualizar_libro s libro_id campo v exc).1.1
      (actualizar_libro s libro_id campo v exc).1.2 = false := by
  rcases actualizar_resultado_casos s libro_id campo v exc with h | ⟨m, hm, h⟩
  · rw [h]
    decide
  · rw [h]
    simp [resultadoSilencioso, hm]

/-- Counterexample for C7 as stated: no input whatsoever makes
`actualizar_libro` return the pair `(False, None)`. -/
theorem actualizar_falso_none_contraejemplo :
    ¬ ∃ (s : Store) (libro_id : Nat) (campo v : String) (exc : Option String),
        (actualizar_libro s libro_id campo v exc).1 = (false, none) := by
  rintro ⟨s, libro_id, campo, v, exc, h⟩
  rcases actualizar_resultado_casos s libro_id campo v exc with h2 | ⟨m, hm, h2⟩
  · rw [h] at h2
    simp at h2
  · rw [h] at h2
    simp at h2

/-- A concrete book whose status is far wider than its 12-character column. -/
def libroEstadoLargo : Libro := ⟨3, "T", "A", some "G", "EstadoDemasiadoLargo"⟩

/-- A concrete book where only the title exceeds its column width. -/
def libroTituloLargo : Libro :=
  ⟨4, "Una historia interminable de una biblioteca infinita", "Autor Breve", some "Drama",
   "Leído"⟩

/-- A concrete book where only the author and the genre exceed their column
widths. -/
def libroAutorGeneroLargo : Libro :=
  ⟨5, "Breve", "Un autor con nombre desmesurado", some "Realismo fantástico", "No leído"⟩

/-- Spec-side row builder following the amended claim's words: each of the
title, author and genre cells holds the value cut at width minus three
characters with an ellipsis appended exactly when the value exceeds its
column width, and the value itself otherwise; the id and status cells are
never truncated. (The missing-genre branch is arbitrary: the comparison
below only concerns lists whose genres are all present, since rendering a
`None` genre raises instead.) -/
def filaEspec (l : Libro) : String :=
  "| " ++ padIzq (toString l.id) (COL_ID - 1) ++ " | " ++
    padIzq (if l.titulo.length > COL_TITULO
        then String.mk (l.titulo.data.take (COL_TITULO - 3)) ++ "..." else l.titulo)
      (COL_TITULO - 1) ++ " | " ++
    padIzq (if l.autor.length > COL_AUTOR
        then String.mk (l.autor.data.take (COL_AUTOR - 3)) ++ "..." else l.autor)
      (COL_AUTOR - 1) ++ " | " ++
    padIzq (match l.genero with
        | some g =>
          if g.length > COL_GENERO
          then String.mk (g.data.take (COL_GENERO - 3)) ++ "..." else g
        | none => "") (COL_GENERO - 1) ++ " | " ++
    padIzq l.estado (COL_ESTADO - 1) ++ " |"

theorem filaLibro_eq_filaEspec (l : Libro) (g : String) (hg : l.genero = some g) :
    filaLibro l = some (filaEspec l) := by
  simp [filaLibro, filaEspec, truncar, hg]

theorem filasLibros_eq_map (libros : List Libro) (hg : ∀ l ∈ libros, l.genero ≠ none) :
    filasLibros libros = some (libros.map filaEspec) := by
  induction libros with
  | nil => rfl
  | cons a ls ih =>
    cases hga : a.genero with
    | none => exact absurd hga (hg a (by simp))
    | some g =>
      simp only [filasLibros, filaLibro_eq_filaEspec a g hga,
        ih fun l hl => hg l (by simp [hl]), List.map_cons]

/-- The truncated-with-ellipsis cell is exactly as wide as its column. -/
theorem truncado_length (v : String) (w : Nat) (h3 : 3 ≤ w) (hv : v.length > w) :
    (String.mk (v.data.take (w - 3)) ++ "...").length = w := by
  have hlen : v.data.length = v.length := rfl
  simp only [String.length_append, String.mk_length, List.length_take]
  have hdots : ("..." : String).length = 3 := rfl
  rw [hdots]
  omega

/-- C8 (amended): for every non-empty record list whose genres are all
present, the rendered table consists of the frame lines and, per record in
order, a row in which each of the title, author and genre cells is the
value cut at width minus three characters with "..." appended exactly when
that value exceeds its column width (each of the three independently), the
over-wide cells measuring exactly their column width, and the id and
status cells are rendered without truncation; the empty list prints the
informational message in place of a table. -/
theorem tabla_truncado (libros : List Libro) (hne : libros ≠ [])
    (hg : ∀ l ∈ libros, l.genero ≠ none) :
    mostrar_libros_tabla libros =
      some ([separador '-', encabezado, separador '='] ++ libros.map filaEspec ++
        [separador '-']) ∧
    (∀ l ∈ libros,
      (l.titulo.length > COL_TITULO →
        (String.mk (l.titulo.data.take (COL_TITULO - 3)) ++ "...").length = COL_TITULO) ∧
      (l.autor.length > COL_AUTOR →
        (String.mk (l.autor.data.take (COL_AUTOR - 3)) ++ "...").length = COL_AUTOR) ∧
      (∀ g, l.genero = some g → g.length > COL_GENERO →
        (String.mk (g.data.take (COL_GENERO - 3)) ++ "...").length = COL_GENERO)) ∧
    mostrar_libros_tabla [] =
      some ["\n No hay libros registrados o no se encontraron resultados."] := by
  refine ⟨?_, ?_, by decide⟩
  · have hemp : libros.isEmpty = false := by
      cases libros with
      | nil => exact absurd rfl hne
      | cons a ls => rfl
    unfold mostrar_libros_tabla
    rw [if_neg (by simp [hemp]), filasLibros_eq_map libros hg]
  · intro l _
    exact ⟨fun h => truncado_length _ _ (by decide) h,
      fun h => truncado_length _ _ (by decide) h,
      fun g _ h => truncado_length _ _ (by decide) h⟩

/-- Witness for C8 (amended): a two-record list in which the first record
exceeds only the title width and the second only the author and genre
widths. -/
theorem tabla_truncado_testigo :
    mostrar_libros_tabla [libroTituloLargo, libroAutorGeneroLargo] =
      some ([separador '-', encabezado, separador '='] ++
        [libroTituloLargo, libroAutorGeneroLargo].map filaEspec ++ [separador '-']) ∧
    (∀ l ∈ [libroTituloLargo, libroAutorGeneroLargo],
      (l.titulo.length > COL_TITULO →
        (String.mk (l.titulo.data.take (COL_TITULO - 3)) ++ "...").length = COL_TITULO) ∧
      (l.autor.length > COL_AUTOR →
        (String.mk (l.autor.data.take (COL_AUTOR - 3)) ++ "...").length = COL_AUTOR) ∧
      (∀ g, l.genero = some g → g.length > COL_GENERO →
        (String.mk (g.data.take (COL_GENERO - 3)) ++ "...").length = COL_GENERO)) ∧
    mostrar_libros_tabla [] =
      some ["\n No hay libros registrados o no se encontraron resultados."] :=
  tabla_truncado [libroTituloLargo, libroAutorGeneroLargo] (by decide) (by decide)

/-- Counterexample for C8 as stated: a status value of 20 characters — well
over its 12-character column — is rendered in full, with no truncation and
no ellipsis. -/
theorem tabla_estado_largo_contraejemplo :
    libroEstadoLargo.estado.length > COL_ESTADO ∧
    mostrar_libros_tabla [libroEstadoLargo] =
      some [separador '-', encabezado, separador '=',
        "| 3    | T                                       | A                        | G              | EstadoDemasiadoLargo |",
        separador '-'] := by
  exact ⟨by decide, by decide⟩

/-- C9 (amended): in the menu loop, the program terminates exactly when the
stripped input is "6", and any input whose stripped form is outside
"1".."6" is rejected with the invalid-option message, the loop continuing
to await the next menu selection. -/
theorem mainPaso_salir_unico (entrada : String) :
    (mainPaso entrada = MenuPaso.salir ↔ strip entrada = "6") ∧
    (mainPaso entrada = MenuPaso.invalido ↔
      strip entrada ∉ (["1", "2", "3", "4", "5", "6"] : List String)) := by
  simp only [mainPaso]
  split_ifs with h1 h2 h3 h4 h5 h6 <;> simp_all

/-- Counterexample for C9 as stated: the input " 6" is a string other than
"6", yet the loop strips it and terminates the program. -/
theorem mainPaso_espacios_contraejemplo :
    mainPaso " 6" = MenuPaso.salir ∧ (" 6" : String) ≠ "6" := by
  exact ⟨by decide, by decide⟩

/-- Row rendering fails exactly on a record whose nullable genre is `NULL`. -/
theorem filasLibros_none_iff (libros : List Libro) :
    filasLibros libros = none ↔ ∃ l ∈ libros, l.genero = none := by
  induction libros with
  | nil => simp [filasLibros]
  | cons a ls ih =>
    cases hg : a.genero with
    | none => simp [filasLibros, filaLibro, hg]
    | some g =>
      simp only [filasLibros, filaLibro, hg]
      cases hrest : filasLibros ls with
      | none =>
        obtain ⟨l, hl, hlg⟩ := ih.mp hrest
        constructor
        · intro _
          exact ⟨l, List.mem_cons_of_mem a hl, hlg⟩
        · intro _
          rfl
      | some fs =>
        constructor
        · intro hcontra
          simp at hcontra
        · rintro ⟨l, hl, hlg⟩
          rcases List.mem_cons.mp hl with rfl | hl2
          · rw [hg] at hlg
            exact absurd hlg (by simp)
          · have hnone : filasLibros ls = none := ih.mpr ⟨l, hl2, hlg⟩
            rw [hrest] at hnone
            simp at hnone

/-- C10: `mostrar_libros_tabla` raises (no table is produced) precisely when
some record in the list has a `None` genre — the value the nullable
`genero` column permits — because `len` is applied to `None` at the
truncation step; with every genre present the table is rendered. -/
theorem mostrar_tabla_genero_none (libros : List Libro) :
    mostrar_libros_tabla libros = none ↔ ∃ l ∈ libros, l.genero = none := by
  unfold mostrar_libros_tabla
  by_cases hempty : libros.isEmpty
  · rw [if_pos hempty]
    rcases List.isEmpty_iff.mp hempty with rfl
    simp
  · rw [if_neg hempty]
    cases hf : filasLibros libros with
    | none =>
      constructor
      · intro _
        exact (filasLibros_none_iff libros).mp hf
      · intro _
        rfl
    | some filas =>
      have hno : ¬ ∃ l ∈ libros, l.genero = none := by
        intro hex
        rw [(filasLibros_none_iff libros).mpr hex] at hf
        simp at hf
      simp [hno]

end Biblioteca
